import Mathlib

/-!
DD4hep: optical surface registration and volume extensions.

A shallow embedding of `DDCore/src/OpticalSurfaces.cpp` and of the inline code of
`DDCore/include/DD4hep/Volumes.h`.

* Pointers are natural numbers, `0` being `nullptr`.
* The objects behind pointers live in typed stores of a `Geo` state, and `new`
  hands out the address above the highest one handed out so far.
* A constructor is a function from the state before to a `Construction`: the
  state after, the `m_element` of the constructed handle and the error raised,
  if any.
-/

set_option autoImplicit false
set_option linter.dupNamespace false

namespace dd4hep

/-! ## Strings as seen through `const char*` -/

/-- The text a `const char*` consumer reads from `s.c_str()`: the characters of `s`
up to, and without, its first NUL character. -/
def c_str (s : String) : String :=
  ⟨s.data.takeWhile (fun c => c ≠ Char.ofNat 0)⟩

/-- Expansion of a printf format with one `%s` directive: the text before the
directive, the argument, and the text after it. -/
def formatChars : List Char → List Char → List Char
  | [], _ => []
  | c :: rest, arg =>
    if c = '%' ∧ rest.head? = some 's' then arg ++ rest.tail
    else c :: formatChars rest arg

/-- String form of `formatChars`. -/
def format (fmt arg : String) : String :=
  ⟨formatChars fmt.data arg.data⟩

/-- The exception object thrown by `except`: the source tag and the formatted text. -/
structure RuntimeError where
  source : String
  what : String
  deriving DecidableEq, Repr

/-! ## Handles -/

/-- Modelled from the spec: `Handle<T>` of `DD4hep/Handle.h`, a non-owning reference
to a native object. It holds the pointer `m_element`, null by default, and is valid
when the pointer is not null. -/
structure Handle where
  m_element : Nat := 0
  deriving DecidableEq, Repr

/-- `Handle::isValid()`. -/
def Handle.isValid (h : Handle) : Bool := h.m_element != 0

/-- `Handle::ptr()`. -/
def Handle.ptr (h : Handle) : Nat := h.m_element

/-- Handle to a detector element. -/
abbrev DetElement := Handle
/-- Handle to a `TGeoOpticalSurface`. -/
abbrev OpticalSurface := Handle
/-- Handle to a `TGeoVolume`. -/
abbrev Volume := Handle
/-- Handle to a `TGeoNode`. -/
abbrev PlacedVolume := Handle

/-! ## Native objects and the state -/

/-- A `double` that is stored and never computed on, as its 64 bit pattern. -/
abbrev Double := Nat

/-- The native optical surface built from the five constructor arguments. -/
structure TGeoOpticalSurface where
  fName : String
  fModel : Int
  fFinish : Int
  fType : Int
  fValue : Double
  deriving DecidableEq, Repr

/-- The native skin surface: name, title (the name of its optical surface), and the
pointers to the optical surface and to the volume. -/
structure TGeoSkinSurface where
  fName : String
  fTitle : String
  fSurface : Nat
  fVolume : Nat
  deriving DecidableEq, Repr

/-- The native border surface: name, title (the name of its optical surface), and the
pointers to the optical surface and to the two nodes. -/
structure TGeoBorderSurface where
  fName : String
  fTitle : String
  fSurface : Nat
  fNode1 : Nat
  fNode2 : Nat
  deriving DecidableEq, Repr

/-- The surface registries of a native geometry manager, as arrays of pointers in
order of registration. -/
structure TGeoManager where
  fOpticalSurfaceArray : List Nat := []
  fSkinSurfaceArray : List Nat := []
  fBorderSurfaceArray : List Nat := []
  deriving DecidableEq, Repr

/-- Modelled from the spec: the part of a detector element object
(`DD4hep/DetElement.h`, `DD4hep/World.h`) that the surface constructors read: its
path, and the detector description reached through `world().detectorDescription()`. -/
structure DetElementObject where
  path : String
  description : Nat
  deriving DecidableEq, Repr

/-- The state the constructors run in: the highest address handed out by `new`, the
stores of the objects behind pointers, and the geometry manager of every detector
description. -/
structure Geo where
  top : Nat
  optical : Nat → TGeoOpticalSurface
  skin : Nat → TGeoSkinSurface
  border : Nat → TGeoBorderSurface
  detElement : Nat → DetElementObject
  manager : Nat → TGeoManager

/-- `de.path()`. -/
def Geo.path (g : Geo) (de : DetElement) : String := (g.detElement de.ptr).path

/-- `de.world().detectorDescription()`, as the identity of the description. -/
def Geo.world (g : Geo) (de : DetElement) : Nat := (g.detElement de.ptr).description

/-- `surf->GetName()`. -/
def Geo.GetName (g : Geo) (surf : OpticalSurface) : String := (g.optical surf.ptr).fName

/-- `new TGeoOpticalSurface(...)`: the address of the new object and the state after. -/
def Geo.newOptical (g : Geo) (o : TGeoOpticalSurface) : Nat × Geo :=
  (g.top + 1, { g with top := g.top + 1, optical := Function.update g.optical (g.top + 1) o })

/-- `new TGeoSkinSurface(...)`: the address of the new object and the state after. -/
def Geo.newSkin (g : Geo) (o : TGeoSkinSurface) : Nat × Geo :=
  (g.top + 1, { g with top := g.top + 1, skin := Function.update g.skin (g.top + 1) o })

/-- `new TGeoBorderSurface(...)`: the address of the new object and the state after. -/
def Geo.newBorder (g : Geo) (o : TGeoBorderSurface) : Nat × Geo :=
  (g.top + 1, { g with top := g.top + 1, border := Function.update g.border (g.top + 1) o })

/-- Modelled from the spec: `TGeoManager::AddOpticalSurface` of the native library
registers the object with the manager of description `d`. -/
def Geo.AddOpticalSurface (g : Geo) (d : Nat) (p : Nat) : Geo :=
  let m := g.manager d
  { g with
    manager := Function.update g.manager d { m with fOpticalSurfaceArray := m.fOpticalSurfaceArray ++ [p] } }

/-- Modelled from the spec: `TGeoManager::AddSkinSurface` of the native library
registers the object with the manager of description `d`. -/
def Geo.AddSkinSurface (g : Geo) (d : Nat) (p : Nat) : Geo :=
  let m := g.manager d
  { g with
    manager := Function.update g.manager d { m with fSkinSurfaceArray := m.fSkinSurfaceArray ++ [p] } }

/-- Modelled from the spec: `TGeoManager::AddBorderSurface` of the native library
registers the object with the manager of description `d`. -/
def Geo.AddBorderSurface (g : Geo) (d : Nat) (p : Nat) : Geo :=
  let m := g.manager d
  { g with
    manager := Function.update g.manager d { m with fBorderSurfaceArray := m.fBorderSurfaceArray ++ [p] } }

/-- What running a constructor leaves behind: the state after, the `m_element` of the
handle under construction, and the error raised, if any. -/
structure Construction where
  geo : Geo
  m_element : Nat
  raised : Option RuntimeError

/-- Modelled from the spec: `except(src, fmt, arg)` of `DD4hep/Printout.h` raises a
fatal error with the formatted message. The state is as it was and the handle under
construction keeps its null `m_element`. -/
def except (g : Geo) (src fmt arg : String) : Construction :=
  ⟨g, 0, some ⟨src, format fmt arg⟩⟩

/-! ## The constructors of `OpticalSurfaces.cpp` -/

/-- `OpticalSurface::OpticalSurface(description, nam, model, finish, type, value)`. -/
def OpticalSurface.OpticalSurface (g : Geo) (description : Nat) (nam : String)
    (model finish type : Int) (value : Double) : Construction :=
  let s := g.newOptical ⟨c_str nam, model, finish, type, value⟩
  ⟨s.2.AddOpticalSurface description s.1, s.1, none⟩

/-- `SkinSurface::SkinSurface(de, nam, surf, vol)`. -/
def SkinSurface.SkinSurface (g : Geo) (de : DetElement) (nam : String)
    (surf : OpticalSurface) (vol : Volume) : Construction :=
  if de.isValid then
    let n := g.path de ++ "#" ++ nam
    if vol.isValid then
      if surf.isValid then
        let wrld := g.world de
        let s := g.newSkin ⟨c_str n, g.GetName surf, surf.ptr, vol.ptr⟩
        ⟨s.2.AddSkinSurface wrld s.1, s.1, none⟩
      else
        except g "SkinSurface"
          "++ Cannot create SkinSurface %s without valid optical surface!" (c_str n)
    else
      except g "SkinSurface" "++ Cannot create SkinSurface %s without valid volume!" (c_str n)
  else
    except g "SkinSurface"
      "++ Cannot create SkinSurface %s which is not connected to a valid detector element!"
      (c_str nam)

/-- `BorderSurface::BorderSurface(de, nam, surf, lft, rht)`. -/
def BorderSurface.BorderSurface (g : Geo) (de : DetElement) (nam : String)
    (surf : OpticalSurface) (lft rht : PlacedVolume) : Construction :=
  if de.isValid then
    let n := g.path de ++ "#" ++ nam
    if lft.isValid && rht.isValid then
      if surf.isValid then
        let wrld := g.world de
        let s := g.newBorder ⟨c_str n, g.GetName surf, surf.ptr, lft.ptr, rht.ptr⟩
        ⟨s.2.AddBorderSurface wrld s.1, s.1, none⟩
      else
        except g "BorderSurface"
          "++ Cannot create BorderSurface %s without valid optical surface!" (c_str n)
    else
      except g "BorderSurface"
        "++ Cannot create BorderSurface %s without valid placements!" (c_str n)
  else
    except g "BorderSurface"
      "++ Cannot create BorderSurface %s which is not connected to a valid detector element!"
      (c_str nam)

/-! ## A concrete state for evaluation -/

/-- A state with one detector element at address 1 (path `/world/ecal`, description 7),
one optical surface at address 2 named `mirror`, and nothing registered. -/
def geo0 : Geo where
  top := 4
  optical := fun _ => ⟨"mirror", 0, 0, 0, 0⟩
  skin := fun _ => ⟨"", "", 0, 0⟩
  border := fun _ => ⟨"", "", 0, 0, 0⟩
  detElement := fun _ => ⟨"/world/ecal", 7⟩
  manager := fun _ => {}

/-- A string without NUL character: one that `c_str` hands over whole. -/
def NulFree (s : String) : Prop := Char.ofNat 0 ∉ s.data

instance (s : String) : Decidable (NulFree s) := by
  unfold NulFree; infer_instance

/-! ## Volume identifiers (`Volumes.h`) -/

/-- `PlacedVolumeExtension::VolID`: a name and an `int` value. -/
abbrev VolID := String × Int

/-- `PlacedVolumeExtension::VolIDs`: a `std::vector<VolID>`; positions, and with them
iterators, are indices, the end iterator being the length. -/
abbrev VolIDs := List VolID

/-- The names of a volume identifier list, in order. -/
def VolIDs.names (v : VolIDs) : List String := v.map Prod.fst

/-- Conversion of an integer of any width to the 32 bit `int` that a `VolID` stores:
the value modulo 2^32, taken in the range from -2^31 to 2^31 - 1. -/
def toInt32 (x : Int) : Int := (x + 2147483648) % 4294967296 - 2147483648

/-- An integer that a 32 bit `int` holds. -/
def fitsInt32 (x : Int) : Prop := -2147483648 ≤ x ∧ x ≤ 2147483647

instance (x : Int) : Decidable (fitsInt32 x) := by
  unfold fitsInt32; infer_instance

/-- An element of an input range handed to the range insertions, which are templates
over the iterator type: a name and an integer value of any width. -/
abbrev RangeElement := String × Int

/-- Construction of a `VolID` from an element of an input range, the converting
constructor of `std::pair<std::string, int>`: the name is kept and the value is
converted to `int`. -/
def VolID.ofElement (e : RangeElement) : VolID := (e.1, toInt32 e.2)

/-- `Base::insert(pos, first, last)` of `std::vector`: a `VolID` is constructed from
every element of the range, in order, before position `pos`; the result is the new
vector and the iterator to the first inserted entry, which is `pos` also for an empty
range. -/
def VolIDs.Base_insert (v : VolIDs) (pos : Nat) (range : List RangeElement) :
    VolIDs × Nat :=
  (v.take pos ++ range.map VolID.ofElement ++ v.drop pos, pos)

/-- `VolIDs::insert(first, last)`: `Base::insert(Base::end(), first, last)`. -/
def VolIDs.insert_range (v : VolIDs) (range : List RangeElement) : VolIDs × Nat :=
  VolIDs.Base_insert v v.length range

/-- `VolIDs::insert(pos, first, last)`: `Base::insert(pos, first, last)`. -/
def VolIDs.insert_at (v : VolIDs) (pos : Nat) (range : List RangeElement) :
    VolIDs × Nat :=
  VolIDs.Base_insert v pos range

/-- Modelled from the spec: `VolIDs::find(name)`, defined in `Volumes.cpp`, finds the
entry of that name; on an absent name it returns the end of the sequence. -/
def VolIDs.find (v : VolIDs) (name : String) : Nat :=
  v.findIdx (fun e => e.1 == name)

/-- Modelled from the spec: `VolIDs::insert(name, value)`, defined in `Volumes.cpp`,
rejects a name already present, reporting failure with the iterator of the entry found;
otherwise it appends the entry and reports success with the iterator of the new entry. -/
def VolIDs.insert (v : VolIDs) (name : String) (value : Int) : VolIDs × Nat × Bool :=
  if VolIDs.find v name < v.length then (v, VolIDs.find v name, false)
  else (v ++ [(name, value)], v.length, true)

/-! ## Extensions (`Volumes.h`) -/

/-- `PlacedVolumeExtension`, with the default member initialisers of the header. The
`long` reference count is an integer. -/
structure PlacedVolumeExtension where
  magic : Nat := 0
  refCount : Int := 0
  volIDs : VolIDs := []
  deriving DecidableEq, Repr

/-- `VolumeExtension`, with the default member initialisers of the header. The `long`
reference count is an integer. -/
structure VolumeExtension where
  magic : Nat := 0
  refCount : Int := 0
  referenced : Int := 0
  flags : Int := 0
  region : Handle := {}
  limits : Handle := {}
  vis : Handle := {}
  sens_det : Handle := {}
  deriving DecidableEq, Repr

/-- `PlacedVolumeExtension::operator=(c)`, applied to `a`. -/
def PlacedVolumeExtension.assign (a c : PlacedVolumeExtension) : PlacedVolumeExtension :=
  { a with magic := c.magic, volIDs := c.volIDs }

/-- `VolumeExtension::copy(c)`, applied to `a`. -/
def VolumeExtension.copy (a c : VolumeExtension) : VolumeExtension :=
  { a with
    magic := c.magic
    region := c.region
    limits := c.limits
    vis := c.vis
    sens_det := c.sens_det
    referenced := c.referenced }

/-- Modelled from the spec: the default constructor of `PlacedVolumeExtension`, defined
in `Volumes.cpp`, writes the sentinel `magic_word` and leaves the count at 0. -/
def PlacedVolumeExtension.construct (magic_word : Nat) :
    PlacedVolumeExtension :=
  { magic := magic_word }

/-- Modelled from the spec: the default constructor of `VolumeExtension`, defined in
`Volumes.cpp`, writes the sentinel `magic_word` and leaves the count at 0. -/
def VolumeExtension.construct (magic_word : Nat) : VolumeExtension :=
  { magic := magic_word }

/-- Modelled from the spec: `PlacedVolumeExtension::Grab()`, defined in `Volumes.cpp`,
increments `refCount` and returns the extension itself. -/
def PlacedVolumeExtension.Grab (e : PlacedVolumeExtension) : PlacedVolumeExtension :=
  { e with refCount := e.refCount + 1 }

/-- Modelled from the spec: `PlacedVolumeExtension::Release()`, defined in
`Volumes.cpp`, decrements `refCount` and destroys the extension when the count has
reached zero or below; `none` is the destroyed extension. -/
def PlacedVolumeExtension.Release (e : PlacedVolumeExtension) :
    Option PlacedVolumeExtension :=
  if e.refCount - 1 ≤ 0 then none else some { e with refCount := e.refCount - 1 }

/-- Modelled from the spec: `VolumeExtension::Grab()`, defined in `Volumes.cpp`,
increments `refCount` and returns the extension itself. -/
def VolumeExtension.Grab (e : VolumeExtension) : VolumeExtension :=
  { e with refCount := e.refCount + 1 }

/-- Modelled from the spec: `VolumeExtension::Release()`, defined in `Volumes.cpp`,
decrements `refCount` and destroys the extension when the count has reached zero or
below; `none` is the destroyed extension. -/
def VolumeExtension.Release (e : VolumeExtension) : Option VolumeExtension :=
  if e.refCount - 1 ≤ 0 then none else some { e with refCount := e.refCount - 1 }

/-- The extension after `n` calls of `Grab()`. -/
def PlacedVolumeExtension.grabs : Nat → PlacedVolumeExtension → PlacedVolumeExtension
  | 0, e => e
  | n + 1, e => (PlacedVolumeExtension.grabs n e).Grab

/-- The extension after `k` calls of `Release()`, `none` once one of them destroyed it. -/
def PlacedVolumeExtension.releases :
    Nat → PlacedVolumeExtension → Option PlacedVolumeExtension
  | 0, e => some e
  | k + 1, e => (PlacedVolumeExtension.releases k e).bind PlacedVolumeExtension.Release

/-- The extension after `n` calls of `Grab()`. -/
def VolumeExtension.grabs : Nat → VolumeExtension → VolumeExtension
  | 0, e => e
  | n + 1, e => (VolumeExtension.grabs n e).Grab

/-- The extension after `k` calls of `Release()`, `none` once one of them destroyed it. -/
def VolumeExtension.releases : Nat → VolumeExtension → Option VolumeExtension
  | 0, e => some e
  | k + 1, e => (VolumeExtension.releases k e).bind VolumeExtension.Release

/-! ## Flag bits of `Volume` -/

/-- `Volume::VETO_SIMU`. -/
def Volume.VETO_SIMU : Nat := 1
/-- `Volume::VETO_RECO`. -/
def Volume.VETO_RECO : Nat := 2
/-- `Volume::VETO_DISPLAY`. -/
def Volume.VETO_DISPLAY : Nat := 3

/-- The bit numbers of `VolumeExtension::flags` reserved for system usage: 0 to 15. -/
def systemBit (b : Nat) : Prop := b ≤ 15

/-- The bit numbers of `VolumeExtension::flags` in user space: 16 to 31. -/
def userBit (b : Nat) : Prop := 16 ≤ b ∧ b ≤ 31

instance (b : Nat) : Decidable (systemBit b) := by
  unfold systemBit; infer_instance

instance (b : Nat) : Decidable (userBit b) := by
  unfold userBit; infer_instance

/-! ## Accessors of the surface handles (`OpticalSurfaces.cpp`) -/

/-- Modelled from the spec: `Handle::access()` of `DD4hep/Handle.h` yields the pointer
of a valid handle and raises on an invalid one; `none` is the raised error. -/
def Handle.access (h : Handle) : Option Nat :=
  if h.isValid then some h.m_element else none

/-- `SkinSurface::surface()`: `access()->GetSurface()` as a handle. -/
def SkinSurface.surface (g : Geo) (h : Handle) : Option OpticalSurface :=
  h.access.map (fun p => ⟨(g.skin p).fSurface⟩)

/-- `SkinSurface::volume()`: `access()->GetVolume()` as a handle. -/
def SkinSurface.volume (g : Geo) (h : Handle) : Option Volume :=
  h.access.map (fun p => ⟨(g.skin p).fVolume⟩)

/-- `BorderSurface::surface()`: `access()->GetSurface()` as a handle. -/
def BorderSurface.surface (g : Geo) (h : Handle) : Option OpticalSurface :=
  h.access.map (fun p => ⟨(g.border p).fSurface⟩)

/-- `BorderSurface::left()`: `access()->GetNode1()` as a handle. -/
def BorderSurface.left (g : Geo) (h : Handle) : Option PlacedVolume :=
  h.access.map (fun p => ⟨(g.border p).fNode1⟩)

/-- `BorderSurface::right()`: `access()->GetNode2()` as a handle. -/
def BorderSurface.right (g : Geo) (h : Handle) : Option PlacedVolume :=
  h.access.map (fun p => ⟨(g.border p).fNode2⟩)

/-! ## Assignment and copy on extensions behind pointers -/

/-- `a = c` of `PlacedVolumeExtension::operator=`, for the extensions at the addresses
`pa` and `pc` of a store, which may be the same address: the two assignments of the
body, one after the other. -/
def PlacedVolumeExtension.assign_at (mem : Nat → PlacedVolumeExtension) (pa pc : Nat) :
    Nat → PlacedVolumeExtension :=
  let m1 := Function.update mem pa { mem pa with magic := (mem pc).magic }
  Function.update m1 pa { m1 pa with volIDs := (m1 pc).volIDs }

/-- `a.copy(c)` of `VolumeExtension::copy`, for the extensions at the addresses `pa` and
`pc` of a store, which may be the same address: the six assignments of the body, one
after the other. -/
def VolumeExtension.copy_at (mem : Nat → VolumeExtension) (pa pc : Nat) :
    Nat → VolumeExtension :=
  let m1 := Function.update mem pa { mem pa with magic := (mem pc).magic }
  let m2 := Function.update m1 pa { m1 pa with region := (m1 pc).region }
  let m3 := Function.update m2 pa { m2 pa with limits := (m2 pc).limits }
  let m4 := Function.update m3 pa { m3 pa with vis := (m3 pc).vis }
  let m5 := Function.update m4 pa { m4 pa with sens_det := (m4 pc).sens_det }
  Function.update m5 pa { m5 pa with referenced := (m5 pc).referenced }

/-- A store of placed volume extensions for evaluation: address 1 holds an extension
with two grabs and one identifier, every other address one with five grabs, another
magic word and two identifiers. -/
def pvStore0 : Nat → PlacedVolumeExtension := fun p =>
  if p = 1 then { magic := 11, refCount := 2, volIDs := [("system", 1)] }
  else { magic := 42, refCount := 5, volIDs := [("system", 3), ("module", 4)] }

/-- A store of volume extensions for evaluation: address 1 holds an extension with two
grabs and the flag bit `VETO_SIMU`, every other address one with five grabs, the flag
bit `VETO_DISPLAY` and other references. -/
def volStore0 : Nat → VolumeExtension := fun p =>
  if p = 1 then
    { magic := 11, refCount := 2, referenced := 0, flags := 2,
      region := ⟨0⟩, limits := ⟨0⟩, vis := ⟨0⟩, sens_det := ⟨0⟩ }
  else
    { magic := 42, refCount := 5, referenced := 1, flags := 8,
      region := ⟨6⟩, limits := ⟨7⟩, vis := ⟨8⟩, sens_det := ⟨9⟩ }

/-! ## Lemmas on C strings -/

theorem takeWhile_ne_eq_self (l : List Char) (h : Char.ofNat 0 ∉ l) :
    l.takeWhile (fun c => c ≠ Char.ofNat 0) = l := by
  induction l with
  | nil => rfl
  | cons a t ih =>
    have ha : a ≠ Char.ofNat 0 := fun e => h (by simp [e])
    have ht : Char.ofNat 0 ∉ t := fun e => h (by simp [e])
    have hd : decide (a ≠ Char.ofNat 0) = true := by simpa using ha
    rw [List.takeWhile_cons, hd, ih ht]
    rfl

theorem c_str_eq_self (s : String) (h : NulFree s) : c_str s = s := by
  unfold c_str
  rw [takeWhile_ne_eq_self s.data h]

theorem nulFree_append (a b : String) (ha : NulFree a) (hb : NulFree b) :
    NulFree (a ++ b) := by
  unfold NulFree at *
  simp [String.data_append, ha, hb]

/-! ## The branches of the constructors -/

theorem SkinSurface_invalid_de (g : Geo) (de : DetElement) (nam : String)
    (surf : OpticalSurface) (vol : Volume) (hde : de.isValid = false) :
    SkinSurface.SkinSurface g de nam surf vol =
      ⟨g, 0, some ⟨"SkinSurface", "++ Cannot create SkinSurface " ++ c_str nam ++
        " which is not connected to a valid detector element!"⟩⟩ := by
  simp only [SkinSurface.SkinSurface, hde]
  rfl

theorem SkinSurface_invalid_vol (g : Geo) (de : DetElement) (nam : String)
    (surf : OpticalSurface) (vol : Volume) (hde : de.isValid = true)
    (hvol : vol.isValid = false) :
    SkinSurface.SkinSurface g de nam surf vol =
      ⟨g, 0, some ⟨"SkinSurface", "++ Cannot create SkinSurface " ++
        c_str (g.path de ++ "#" ++ nam) ++ " without valid volume!"⟩⟩ := by
  simp only [SkinSurface.SkinSurface, hde, hvol]
  rfl

theorem SkinSurface_invalid_surf (g : Geo) (de : DetElement) (nam : String)
    (surf : OpticalSurface) (vol : Volume) (hde : de.isValid = true)
    (hvol : vol.isValid = true) (hsurf : surf.isValid = false) :
    SkinSurface.SkinSurface g de nam surf vol =
      ⟨g, 0, some ⟨"SkinSurface", "++ Cannot create SkinSurface " ++
        c_str (g.path de ++ "#" ++ nam) ++ " without valid optical surface!"⟩⟩ := by
  simp only [SkinSurface.SkinSurface, hde, hvol, hsurf]
  rfl

theorem SkinSurface_valid (g : Geo) (de : DetElement) (nam : String)
    (surf : OpticalSurface) (vol : Volume) (hde : de.isValid = true)
    (hvol : vol.isValid = true) (hsurf : surf.isValid = true) :
    SkinSurface.SkinSurface g de nam surf vol =
      ⟨(g.newSkin ⟨c_str (g.path de ++ "#" ++ nam), g.GetName surf, surf.ptr,
          vol.ptr⟩).2.AddSkinSurface (g.world de) (g.top + 1), g.top + 1, none⟩ := by
  simp only [SkinSurface.SkinSurface, hde, hvol, hsurf]
  rfl

theorem name_infix_message (nam path pre post : String) (hn : NulFree nam)
    (hp : NulFree path) :
    nam.data <:+: (pre ++ c_str (path ++ "#" ++ nam) ++ post).data := by
  rw [c_str_eq_self _ (nulFree_append _ _ (nulFree_append _ _ hp (by decide)) hn)]
  exact ⟨(pre ++ (path ++ "#")).data, post.data, by simp [String.data_append]⟩

/-! ## Skin surfaces -/

/-- C1: the `SkinSurface` constructor raises exactly when one of `de`, `vol`, `surf`
is invalid, and returns without raising when all three are valid. -/
theorem SkinSurface_raises_iff_invalid (g : Geo) (de : DetElement) (nam : String)
    (surf : OpticalSurface) (vol : Volume) :
    ((SkinSurface.SkinSurface g de nam surf vol).raised.isSome = true ↔
      (de.isValid = false ∨ vol.isValid = false ∨ surf.isValid = false)) ∧
    (de.isValid = true ∧ vol.isValid = true ∧ surf.isValid = true →
      (SkinSurface.SkinSurface g de nam surf vol).raised = none) := by
  cases hde : de.isValid <;> cases hvol : vol.isValid <;> cases hsurf : surf.isValid <;>
    simp [SkinSurface.SkinSurface, except, hde, hvol, hsurf]

/-- C2: a `SkinSurface` construction with an invalid detector element raises, and every
`SkinSurface` construction that raises leaves the whole state, hence every surface
registry of every manager, as it was, with the `m_element` of the handle still null. -/
theorem SkinSurface_failure_registers_nothing (g : Geo) (de : DetElement) (nam : String)
    (surf : OpticalSurface) (vol : Volume) :
    (de.isValid = false →
      (SkinSurface.SkinSurface g de nam surf vol).raised.isSome = true) ∧
    ((SkinSurface.SkinSurface g de nam surf vol).raised.isSome = true →
      (SkinSurface.SkinSurface g de nam surf vol).geo = g ∧
      (SkinSurface.SkinSurface g de nam surf vol).m_element = 0 ∧
      ∀ d, (SkinSurface.SkinSurface g de nam surf vol).geo.manager d = g.manager d) := by
  cases hde : de.isValid <;> cases hvol : vol.isValid <;> cases hsurf : surf.isValid <;>
    simp [SkinSurface.SkinSurface, except, hde, hvol, hsurf]

set_option maxRecDepth 8000 in
/-- C3, as stated, fails: with an invalid detector element and the name `a`, NUL, `b`
the construction raises, and the message does not contain the name. -/
theorem SkinSurface_message_omits_name_with_nul :
    ∃ e, (SkinSurface.SkinSurface geo0 ⟨0⟩ "a\x00b" ⟨2⟩ ⟨3⟩).raised = some e ∧
      ¬ ("a\x00b".data <:+: e.what.data) :=
  ⟨⟨"SkinSurface",
    "++ Cannot create SkinSurface a which is not connected to a valid detector element!"⟩,
    by rfl, by decide⟩

/-- C3, amended: a failing `SkinSurface` construction raises a message that names the
first invalid dependency in the order detector element, volume, optical surface, and
that embeds the C string of the name: of `nam` for an invalid detector element, of
`de.path() + '#' + nam` otherwise. It contains `nam` whenever `nam` and, for a valid
detector element, its path are free of NUL characters. -/
theorem SkinSurface_message_names_dependency (g : Geo) (de : DetElement) (nam : String)
    (surf : OpticalSurface) (vol : Volume)
    (h : (SkinSurface.SkinSurface g de nam surf vol).raised.isSome = true) :
    ∃ e, (SkinSurface.SkinSurface g de nam surf vol).raised = some e ∧
      e.source = "SkinSurface" ∧
      (de.isValid = false →
        e.what = "++ Cannot create SkinSurface " ++ c_str nam ++
          " which is not connected to a valid detector element!") ∧
      (de.isValid = true → vol.isValid = false →
        e.what = "++ Cannot create SkinSurface " ++ c_str (g.path de ++ "#" ++ nam) ++
          " without valid volume!") ∧
      (de.isValid = true → vol.isValid = true →
        surf.isValid = false ∧
        e.what = "++ Cannot create SkinSurface " ++ c_str (g.path de ++ "#" ++ nam) ++
          " without valid optical surface!") ∧
      (NulFree nam → (de.isValid = true → NulFree (g.path de)) →
        nam.data <:+: e.what.data) := by
  cases hde : de.isValid
  · rw [SkinSurface_invalid_de g de nam surf vol hde]
    refine ⟨_, rfl, rfl, fun _ => rfl, ?_, ?_, ?_⟩
    · intro h1; exact absurd h1 (by simp)
    · intro h1; exact absurd h1 (by simp)
    · intro hn _
      rw [c_str_eq_self nam hn]
      exact ⟨_, _, rfl⟩
  · cases hvol : vol.isValid
    · rw [SkinSurface_invalid_vol g de nam surf vol hde hvol]
      refine ⟨_, rfl, rfl, ?_, fun _ _ => rfl, ?_, ?_⟩
      · intro h1; exact absurd h1 (by simp)
      · intro _ h1; exact absurd h1 (by simp)
      · intro hn hp
        exact name_infix_message nam _ _ _ hn (hp rfl)
    · cases hsurf : surf.isValid
      · rw [SkinSurface_invalid_surf g de nam surf vol hde hvol hsurf]
        refine ⟨_, rfl, rfl, ?_, ?_, fun _ _ => ⟨rfl, rfl⟩, ?_⟩
        · intro h1; exact absurd h1 (by simp)
        · intro _ h1; exact absurd h1 (by simp)
        · intro hn hp
          exact name_infix_message nam _ _ _ hn (hp rfl)
      · rw [SkinSurface_valid g de nam surf vol hde hvol hsurf] at h
        exact absurd h (by simp)

/-- Witness of C3: a valid detector element and optical surface with a null volume. -/
theorem SkinSurface_message_names_dependency_witness :
    ∃ e, (SkinSurface.SkinSurface geo0 ⟨1⟩ "skin" ⟨2⟩ ⟨0⟩).raised = some e ∧
      e.what = "++ Cannot create SkinSurface /world/ecal#skin without valid volume!" := by
  obtain ⟨e, he, _, _, h2, _⟩ :=
    SkinSurface_message_names_dependency geo0 ⟨1⟩ "skin" ⟨2⟩ ⟨0⟩ (by rfl)
  exact ⟨e, he, by rw [h2 (by rfl) (by rfl)]; rfl⟩

/-- C4, as stated, fails: with valid arguments and the name `a`, NUL, `b` the
construction succeeds, and the name of the registered object is not
`de.path() + '#' + nam`. -/
theorem SkinSurface_name_cut_at_nul :
    (SkinSurface.SkinSurface geo0 ⟨1⟩ "a\x00b" ⟨2⟩ ⟨3⟩).raised = none ∧
    ((SkinSurface.SkinSurface geo0 ⟨1⟩ "a\x00b" ⟨2⟩ ⟨3⟩).geo.manager 7).fSkinSurfaceArray
      = [5] ∧
    ((SkinSurface.SkinSurface geo0 ⟨1⟩ "a\x00b" ⟨2⟩ ⟨3⟩).geo.skin 5).fName
      = "/world/ecal#a" ∧
    ((SkinSurface.SkinSurface geo0 ⟨1⟩ "a\x00b" ⟨2⟩ ⟨3⟩).geo.skin 5).fName
      ≠ geo0.path ⟨1⟩ ++ "#" ++ "a\x00b" := by
  refine ⟨by rfl, by decide, by decide, by decide⟩

/-- C4, amended: with valid `de`, `vol` and `surf` the construction does not raise; it
allocates one new skin surface object, appends its address to the skin surface
registry of the manager of the description reached through `de.world()`, and changes no
other registry, manager or object. The new object references `surf` under the name of
`surf`, references `vol`, and is what the handle refers to. Its name is the C string of
`de.path() + '#' + nam`, which is `de.path() + '#' + nam` when the path and `nam` are
free of NUL characters. -/
theorem SkinSurface_registers_one (g : Geo) (de : DetElement) (nam : String)
    (surf : OpticalSurface) (vol : Volume) (hde : de.isValid = true)
    (hvol : vol.isValid = true) (hsurf : surf.isValid = true) :
    (SkinSurface.SkinSurface g de nam surf vol).raised = none ∧
    (SkinSurface.SkinSurface g de nam surf vol).m_element = g.top + 1 ∧
    ((SkinSurface.SkinSurface g de nam surf vol).geo.manager (g.world de)).fSkinSurfaceArray
      = (g.manager (g.world de)).fSkinSurfaceArray ++
          [(SkinSurface.SkinSurface g de nam surf vol).m_element] ∧
    ((SkinSurface.SkinSurface g de nam surf vol).geo.manager (g.world de)).fOpticalSurfaceArray
      = (g.manager (g.world de)).fOpticalSurfaceArray ∧
    ((SkinSurface.SkinSurface g de nam surf vol).geo.manager (g.world de)).fBorderSurfaceArray
      = (g.manager (g.world de)).fBorderSurfaceArray ∧
    (∀ d, d ≠ g.world de →
      (SkinSurface.SkinSurface g de nam surf vol).geo.manager d = g.manager d) ∧
    (SkinSurface.SkinSurface g de nam surf vol).geo.skin
        (SkinSurface.SkinSurface g de nam surf vol).m_element
      = ⟨c_str (g.path de ++ "#" ++ nam), g.GetName surf, surf.ptr, vol.ptr⟩ ∧
    (∀ p, p ≠ (SkinSurface.SkinSurface g de nam surf vol).m_element →
      (SkinSurface.SkinSurface g de nam surf vol).geo.skin p = g.skin p) ∧
    (SkinSurface.SkinSurface g de nam surf vol).geo.optical = g.optical ∧
    (SkinSurface.SkinSurface g de nam surf vol).geo.border = g.border ∧
    (SkinSurface.SkinSurface g de nam surf vol).geo.detElement = g.detElement ∧
    (NulFree (g.path de) → NulFree nam →
      ((SkinSurface.SkinSurface g de nam surf vol).geo.skin
        (SkinSurface.SkinSurface g de nam surf vol).m_element).fName
        = g.path de ++ "#" ++ nam) := by
  rw [SkinSurface_valid g de nam surf vol hde hvol hsurf]
  refine ⟨rfl, rfl, ?_, ?_, ?_, ?_, ?_, ?_, rfl, rfl, rfl, ?_⟩
  · simp [Geo.AddSkinSurface, Geo.newSkin]
  · simp [Geo.AddSkinSurface, Geo.newSkin]
  · simp [Geo.AddSkinSurface, Geo.newSkin]
  · intro d hd
    simp [Geo.AddSkinSurface, Geo.newSkin, Function.update_noteq hd]
  · simp [Geo.AddSkinSurface, Geo.newSkin]
  · intro p hp
    simp only [Geo.AddSkinSurface, Geo.newSkin]
    exact Function.update_noteq hp _ _
  · intro hp hn
    simp only [Geo.AddSkinSurface, Geo.newSkin, Function.update_same]
    exact c_str_eq_self _ (nulFree_append _ _ (nulFree_append _ _ hp (by decide)) hn)

/-- Witness of C4: a skin surface `skin` on the detector element of `geo0`. -/
theorem SkinSurface_registers_one_witness :
    (SkinSurface.SkinSurface geo0 ⟨1⟩ "skin" ⟨2⟩ ⟨3⟩).m_element = 5 ∧
    ((SkinSurface.SkinSurface geo0 ⟨1⟩ "skin" ⟨2⟩ ⟨3⟩).geo.manager 7).fSkinSurfaceArray
      = [5] ∧
    (SkinSurface.SkinSurface geo0 ⟨1⟩ "skin" ⟨2⟩ ⟨3⟩).geo.skin 5
      = ⟨"/world/ecal#skin", "mirror", 2, 3⟩ := by
  obtain ⟨_, h1, h2, _, _, _, h6, _⟩ :=
    SkinSurface_registers_one geo0 ⟨1⟩ "skin" ⟨2⟩ ⟨3⟩ (by rfl) (by rfl) (by rfl)
  refine ⟨h1, ?_, ?_⟩
  · rw [show geo0.world ⟨1⟩ = 7 from rfl] at h2
    rw [h2, h1]; rfl
  · rw [h1] at h6
    exact h6.trans (by decide)

/-! ## Border surfaces -/

/-- C5: the `BorderSurface` constructor returns without raising, having registered
exactly one border surface, if and only if `de`, `lft`, `rht` and `surf` are all valid.
When all four are valid the new address is appended to the border surface registry of
the manager reached through `de.world()` and no other registry or manager changes;
when one of them is invalid the constructor raises and the state is as it was. -/
theorem BorderSurface_registers_iff_valid (g : Geo) (de : DetElement) (nam : String)
    (surf : OpticalSurface) (lft rht : PlacedVolume) :
    (((BorderSurface.BorderSurface g de nam surf lft rht).raised = none ∧
      ((BorderSurface.BorderSurface g de nam surf lft rht).geo.manager
          (g.world de)).fBorderSurfaceArray
        = (g.manager (g.world de)).fBorderSurfaceArray ++
            [(BorderSurface.BorderSurface g de nam surf lft rht).m_element]) ↔
      (de.isValid = true ∧ lft.isValid = true ∧ rht.isValid = true ∧
        surf.isValid = true)) ∧
    (de.isValid = true ∧ lft.isValid = true ∧ rht.isValid = true ∧ surf.isValid = true →
      (BorderSurface.BorderSurface g de nam surf lft rht).raised = none ∧
      (BorderSurface.BorderSurface g de nam surf lft rht).m_element = g.top + 1 ∧
      ((BorderSurface.BorderSurface g de nam surf lft rht).geo.manager
          (g.world de)).fBorderSurfaceArray
        = (g.manager (g.world de)).fBorderSurfaceArray ++ [g.top + 1] ∧
      ((BorderSurface.BorderSurface g de nam surf lft rht).geo.manager
          (g.world de)).fSkinSurfaceArray
        = (g.manager (g.world de)).fSkinSurfaceArray ∧
      ((BorderSurface.BorderSurface g de nam surf lft rht).geo.manager
          (g.world de)).fOpticalSurfaceArray
        = (g.manager (g.world de)).fOpticalSurfaceArray ∧
      (∀ d, d ≠ g.world de →
        (BorderSurface.BorderSurface g de nam surf lft rht).geo.manager d = g.manager d)) ∧
    (de.isValid = false ∨ lft.isValid = false ∨ rht.isValid = false ∨
        surf.isValid = false →
      (BorderSurface.BorderSurface g de nam surf lft rht).raised.isSome = true ∧
      (BorderSurface.BorderSurface g de nam surf lft rht).geo = g ∧
      (BorderSurface.BorderSurface g de nam surf lft rht).m_element = 0) := by
  cases hde : de.isValid <;> cases hl : lft.isValid <;> cases hr : rht.isValid <;>
    cases hsurf : surf.isValid <;>
    simp [BorderSurface.BorderSurface, except, hde, hl, hr, hsurf, Geo.AddBorderSurface,
      Geo.newBorder]
  intro d hd
  exact Function.update_noteq hd _ _

/-! ## Optical surfaces -/

/-- C6, as stated, fails: for the name `a`, NUL, `b` the registered native object does
not carry the name it was constructed with. -/
theorem OpticalSurface_name_cut_at_nul :
    (OpticalSurface.OpticalSurface geo0 7 "a\x00b" 1 2 3 4).raised = none ∧
    ((OpticalSurface.OpticalSurface geo0 7 "a\x00b" 1 2 3 4).geo.manager
      7).fOpticalSurfaceArray = [5] ∧
    (OpticalSurface.OpticalSurface geo0 7 "a\x00b" 1 2 3 4).geo.optical 5
      = ⟨"a", 1, 2, 3, 4⟩ ∧
    (OpticalSurface.OpticalSurface geo0 7 "a\x00b" 1 2 3 4).geo.optical 5
      ≠ ⟨"a\x00b", 1, 2, 3, 4⟩ := by
  refine ⟨by rfl, by decide, by decide, by decide⟩

/-- C6, amended: the `OpticalSurface` constructor never raises; it allocates one native
optical surface carrying the C string of `nam` (which is `nam` when `nam` is free of NUL
characters) and the given model, finish, type and value, appends its address to the
optical surface registry of the manager of the description, changes no other registry,
manager or object, and leaves the handle valid and referring to the new object. -/
theorem OpticalSurface_registers_one (g : Geo) (description : Nat) (nam : String)
    (model finish type : Int) (value : Double) :
    (OpticalSurface.OpticalSurface g description nam model finish type value).raised
      = none ∧
    (OpticalSurface.OpticalSurface g description nam model finish type value).m_element
      = g.top + 1 ∧
    Handle.isValid
      ⟨(OpticalSurface.OpticalSurface g description nam model finish type value).m_element⟩
      = true ∧
    (OpticalSurface.OpticalSurface g description nam model finish type value).geo.optical
        (OpticalSurface.OpticalSurface g description nam model finish type value).m_element
      = ⟨c_str nam, model, finish, type, value⟩ ∧
    (∀ p, p ≠ g.top + 1 →
      (OpticalSurface.OpticalSurface g description nam model finish type value).geo.optical p
        = g.optical p) ∧
    ((OpticalSurface.OpticalSurface g description nam model finish type value).geo.manager
        description).fOpticalSurfaceArray
      = (g.manager description).fOpticalSurfaceArray ++ [g.top + 1] ∧
    ((OpticalSurface.OpticalSurface g description nam model finish type value).geo.manager
        description).fSkinSurfaceArray
      = (g.manager description).fSkinSurfaceArray ∧
    ((OpticalSurface.OpticalSurface g description nam model finish type value).geo.manager
        description).fBorderSurfaceArray
      = (g.manager description).fBorderSurfaceArray ∧
    (∀ d, d ≠ description →
      (OpticalSurface.OpticalSurface g description nam model finish type value).geo.manager d
        = g.manager d) ∧
    (OpticalSurface.OpticalSurface g description nam model finish type value).geo.skin
      = g.skin ∧
    (OpticalSurface.OpticalSurface g description nam model finish type value).geo.border
      = g.border ∧
    (NulFree nam →
      (OpticalSurface.OpticalSurface g description nam model finish type value).geo.optical
          (g.top + 1)
        = ⟨nam, model, finish, type, value⟩) := by
  refine ⟨rfl, rfl, ?_, ?_, ?_, ?_, ?_, ?_, ?_, rfl, rfl, ?_⟩
  · simp [OpticalSurface.OpticalSurface, Geo.newOptical, Handle.isValid]
  · simp [OpticalSurface.OpticalSurface, Geo.newOptical, Geo.AddOpticalSurface]
  · intro p hp
    simp only [OpticalSurface.OpticalSurface, Geo.newOptical, Geo.AddOpticalSurface]
    exact Function.update_noteq hp _ _
  · simp [OpticalSurface.OpticalSurface, Geo.newOptical, Geo.AddOpticalSurface]
  · simp [OpticalSurface.OpticalSurface, Geo.newOptical, Geo.AddOpticalSurface]
  · simp [OpticalSurface.OpticalSurface, Geo.newOptical, Geo.AddOpticalSurface]
  · intro d hd
    simp only [OpticalSurface.OpticalSurface, Geo.newOptical, Geo.AddOpticalSurface]
    exact Function.update_noteq hd _ _
  · intro hn
    simp [OpticalSurface.OpticalSurface, Geo.newOptical, Geo.AddOpticalSurface,
      c_str_eq_self nam hn]

/-! ## Volume identifier lists -/

theorem VolIDs_find_lt_iff (v : VolIDs) (name : String) :
    VolIDs.find v name < v.length ↔ name ∈ VolIDs.names v := by
  unfold VolIDs.find VolIDs.names
  rw [List.findIdx_lt_length]
  simp only [List.mem_map, beq_iff_eq]

theorem VolIDs_names_Base_insert_nodup (v : VolIDs) (pos : Nat) (r : List VolID)
    (h : (VolIDs.names v).Nodup) :
    (VolIDs.names (VolIDs.Base_insert v pos r).1).Nodup ↔
      ((VolIDs.names r).Nodup ∧ ∀ n ∈ VolIDs.names r, n ∉ VolIDs.names v) := by
  have hperm : (VolIDs.names (VolIDs.Base_insert v pos r).1).Perm
      (VolIDs.names v ++ VolIDs.names r) := by
    have hv : VolIDs.names v
        = VolIDs.names (v.take pos) ++ VolIDs.names (v.drop pos) := by
      unfold VolIDs.names
      rw [← List.map_append, List.take_append_drop]
    have hr : VolIDs.names (r.map VolID.ofElement) = VolIDs.names r := by
      unfold VolIDs.names
      rw [List.map_map]
      rfl
    unfold VolIDs.Base_insert
    rw [hv, ← hr]
    simp only [VolIDs.names, List.map_append, List.append_assoc]
    exact List.Perm.append_left _ List.perm_append_comm
  rw [hperm.nodup_iff, List.nodup_append]
  constructor
  · rintro ⟨_, hr, hd⟩
    exact ⟨hr, fun n hn hv => hd hv hn⟩
  · rintro ⟨hr, hd⟩
    exact ⟨h, hr, fun n hv hn => hd n hn hv⟩

/-- C7, as stated, fails: the list holding `system` once has distinct names, and the
range insertion of another `system` entry yields a list with the name twice. -/
theorem VolIDs_insert_range_duplicates :
    (VolIDs.names [("system", 1)]).Nodup ∧
    (VolIDs.insert_range [("system", 1)] [("system", 2)]).1
      = [("system", 1), ("system", 2)] ∧
    ¬ (VolIDs.names (VolIDs.insert_range [("system", 1)] [("system", 2)]).1).Nodup := by
  refine ⟨by decide, by decide, by decide⟩

/-- C7, amended: on a list with pairwise distinct names, `insert(name, value)` yields a
list with pairwise distinct names, and each of the range overloads `insert(first, last)`
and `insert(pos, first, last)` yields one exactly when the names of the range are
pairwise distinct and none of them is in the list. -/
theorem VolIDs_insert_keeps_names_distinct (v : VolIDs) (h : (VolIDs.names v).Nodup) :
    (∀ name value, (VolIDs.names (VolIDs.insert v name value).1).Nodup) ∧
    (∀ r, (VolIDs.names (VolIDs.insert_range v r).1).Nodup ↔
      ((VolIDs.names r).Nodup ∧ ∀ n ∈ VolIDs.names r, n ∉ VolIDs.names v)) ∧
    (∀ pos r, (VolIDs.names (VolIDs.insert_at v pos r).1).Nodup ↔
      ((VolIDs.names r).Nodup ∧ ∀ n ∈ VolIDs.names r, n ∉ VolIDs.names v)) := by
  refine ⟨?_, fun r => VolIDs_names_Base_insert_nodup v _ r h,
    fun pos r => VolIDs_names_Base_insert_nodup v pos r h⟩
  intro name value
  unfold VolIDs.insert
  by_cases hf : VolIDs.find v name < v.length
  · simpa [hf] using h
  · have hn : name ∉ VolIDs.names v := fun hm => hf ((VolIDs_find_lt_iff v name).2 hm)
    simp only [hf, if_false]
    unfold VolIDs.names at *
    rw [List.map_append, List.nodup_append]
    refine ⟨h, by simp, ?_⟩
    intro a ha hb
    simp only [List.map_cons, List.map_nil, List.mem_singleton] at hb
    exact hn (hb ▸ ha)

/-- Witness of C7: the list holding `system`, to which `module` is added. -/
theorem VolIDs_insert_keeps_names_distinct_witness :
    (VolIDs.names [("system", 1)]).Nodup ∧
    (VolIDs.names (VolIDs.insert [("system", 1)] "module" 2).1).Nodup ∧
    (VolIDs.names (VolIDs.insert [("system", 1)] "system" 2).1).Nodup :=
  ⟨by decide,
    (VolIDs_insert_keeps_names_distinct [("system", 1)] (by decide)).1 "module" 2,
    (VolIDs_insert_keeps_names_distinct [("system", 1)] (by decide)).1 "system" 2⟩

theorem toInt32_of_fits (x : Int) (h : fitsInt32 x) : toInt32 x = x := by
  unfold fitsInt32 at h
  unfold toInt32
  omega

theorem map_ofElement_of_fits (r : List RangeElement) (h : ∀ e ∈ r, fitsInt32 e.2) :
    r.map VolID.ofElement = r := by
  induction r with
  | nil => rfl
  | cons a t ih =>
    have ha : VolID.ofElement a = a := by
      unfold VolID.ofElement
      rw [toInt32_of_fits a.2 (h a (by simp))]
    rw [List.map_cons, ha, ih (fun e he => h e (by simp [he]))]

theorem PlacedVolumeExtension_grabs_eq (n : Nat) (e : PlacedVolumeExtension) :
    PlacedVolumeExtension.grabs n e = { e with refCount := e.refCount + n } := by
  induction n with
  | zero => simp [PlacedVolumeExtension.grabs]
  | succ n ih =>
    simp only [PlacedVolumeExtension.grabs, ih, PlacedVolumeExtension.Grab]
    congr 1
    push_cast
    ring

theorem PlacedVolumeExtension_releases_eq (k : Nat) (e : PlacedVolumeExtension)
    (h : (k : Int) < e.refCount) :
    PlacedVolumeExtension.releases k e = some { e with refCount := e.refCount - k } := by
  induction k with
  | zero => simp [PlacedVolumeExtension.releases]
  | succ k ih =>
    have hk : (k : Int) < e.refCount := by push_cast at h; omega
    have hpos : ¬ (e.refCount - (k : Int) - 1 ≤ 0) := by push_cast at h; omega
    simp only [PlacedVolumeExtension.releases, ih hk, Option.some_bind,
      PlacedVolumeExtension.Release, hpos, if_false]
    congr 2
    push_cast
    ring

theorem PlacedVolumeExtension_releases_last (k : Nat) (e : PlacedVolumeExtension)
    (h : e.refCount = (k : Int) + 1) :
    PlacedVolumeExtension.releases (k + 1) e = none := by
  have hk : (k : Int) < e.refCount := by omega
  have hz : e.refCount - (k : Int) - 1 ≤ 0 := by omega
  simp only [PlacedVolumeExtension.releases, PlacedVolumeExtension_releases_eq k e hk, Option.some_bind,
    PlacedVolumeExtension.Release, hz, if_true]

theorem VolumeExtension_grabs_eq (n : Nat) (e : VolumeExtension) :
    VolumeExtension.grabs n e = { e with refCount := e.refCount + n } := by
  induction n with
  | zero => simp [VolumeExtension.grabs]
  | succ n ih =>
    simp only [VolumeExtension.grabs, ih, VolumeExtension.Grab]
    congr 1
    push_cast
    ring

theorem VolumeExtension_releases_eq (k : Nat) (e : VolumeExtension)
    (h : (k : Int) < e.refCount) :
    VolumeExtension.releases k e = some { e with refCount := e.refCount - k } := by
  induction k with
  | zero => simp [VolumeExtension.releases]
  | succ k ih =>
    have hk : (k : Int) < e.refCount := by push_cast at h; omega
    have hpos : ¬ (e.refCount - (k : Int) - 1 ≤ 0) := by push_cast at h; omega
    simp only [VolumeExtension.releases, ih hk, Option.some_bind,
      VolumeExtension.Release, hpos, if_false]
    congr 2
    push_cast
    ring

theorem VolumeExtension_releases_last (k : Nat) (e : VolumeExtension)
    (h : e.refCount = (k : Int) + 1) :
    VolumeExtension.releases (k + 1) e = none := by
  have hk : (k : Int) < e.refCount := by omega
  have hz : e.refCount - (k : Int) - 1 ≤ 0 := by omega
  simp only [VolumeExtension.releases, VolumeExtension_releases_eq k e hk, Option.some_bind,
    VolumeExtension.Release, hz, if_true]

/-- C9: a freshly constructed extension of either kind has `refCount` 0; after `N ≥ 1`
calls of `Grab()` and then `k < N` calls of `Release()` it is alive with
`refCount = N - k > 0` and otherwise as constructed, and the `N`-th `Release()`
destroys it. -/
theorem extension_destroyed_by_nth_release (magic_word N : Nat) (hN : 1 ≤ N) :
    (PlacedVolumeExtension.construct magic_word).refCount = 0 ∧
    (∀ k, k < N →
      PlacedVolumeExtension.releases k
          (PlacedVolumeExtension.grabs N (PlacedVolumeExtension.construct magic_word))
        = some { PlacedVolumeExtension.construct magic_word with
                 refCount := (N : Int) - k } ∧
      0 < (N : Int) - k) ∧
    PlacedVolumeExtension.releases N
        (PlacedVolumeExtension.grabs N (PlacedVolumeExtension.construct magic_word))
      = none ∧
    (VolumeExtension.construct magic_word).refCount = 0 ∧
    (∀ k, k < N →
      VolumeExtension.releases k
          (VolumeExtension.grabs N (VolumeExtension.construct magic_word))
        = some { VolumeExtension.construct magic_word with refCount := (N : Int) - k } ∧
      0 < (N : Int) - k) ∧
    VolumeExtension.releases N
        (VolumeExtension.grabs N (VolumeExtension.construct magic_word))
      = none := by
  obtain ⟨m, rfl⟩ : ∃ m, N = m + 1 := ⟨N - 1, by omega⟩
  refine ⟨rfl, ?_, ?_, rfl, ?_, ?_⟩
  · intro k hk
    refine ⟨?_, by omega⟩
    rw [PlacedVolumeExtension_grabs_eq,
      PlacedVolumeExtension_releases_eq k _
        (by simp only [PlacedVolumeExtension.construct]; omega)]
    simp [PlacedVolumeExtension.construct]
  · apply PlacedVolumeExtension_releases_last
    rw [PlacedVolumeExtension_grabs_eq]
    simp [PlacedVolumeExtension.construct]
  · intro k hk
    refine ⟨?_, by omega⟩
    rw [VolumeExtension_grabs_eq,
      VolumeExtension_releases_eq k _ (by simp only [VolumeExtension.construct]; omega)]
    simp [VolumeExtension.construct]
  · apply VolumeExtension_releases_last
    rw [VolumeExtension_grabs_eq]
    simp [VolumeExtension.construct]

/-- Witness of C9: three grabs; two releases leave the count at 1, the third destroys. -/
theorem extension_destroyed_by_nth_release_witness :
    PlacedVolumeExtension.releases 2
        (PlacedVolumeExtension.grabs 3 (PlacedVolumeExtension.construct 42))
      = some { magic := 42, refCount := 1, volIDs := [] } ∧
    PlacedVolumeExtension.releases 3
        (PlacedVolumeExtension.grabs 3 (PlacedVolumeExtension.construct 42))
      = none ∧
    VolumeExtension.releases 3 (VolumeExtension.grabs 3 (VolumeExtension.construct 42))
      = none :=
  ⟨(((extension_destroyed_by_nth_release 42 3 (by decide)).2.1 2 (by decide)).1).trans
      (by decide),
    (extension_destroyed_by_nth_release 42 3 (by decide)).2.2.1,
    (extension_destroyed_by_nth_release 42 3 (by decide)).2.2.2.2.2⟩

/-! ## Flag bits -/

/-- C10: the flag bit numbers `VETO_SIMU`, `VETO_RECO` and `VETO_DISPLAY` are pairwise
distinct, each lies in the system range 0 to 15, and none of them is a bit number of
the user range 16 to 31. -/
theorem veto_bits_distinct_in_system_range :
    Volume.VETO_SIMU ≠ Volume.VETO_RECO ∧
    Volume.VETO_SIMU ≠ Volume.VETO_DISPLAY ∧
    Volume.VETO_RECO ≠ Volume.VETO_DISPLAY ∧
    systemBit Volume.VETO_SIMU ∧ systemBit Volume.VETO_RECO ∧
    systemBit Volume.VETO_DISPLAY ∧
    (∀ b, userBit b →
      b ≠ Volume.VETO_SIMU ∧ b ≠ Volume.VETO_RECO ∧ b ≠ Volume.VETO_DISPLAY) := by
  refine ⟨by decide, by decide, by decide, by decide, by decide, by decide, ?_⟩
  intro b hb
  unfold userBit at hb
  simp only [Volume.VETO_SIMU, Volume.VETO_RECO, Volume.VETO_DISPLAY]
  omega

/-! ## Accessors of the constructed surfaces -/

theorem BorderSurface_valid (g : Geo) (de : DetElement) (nam : String)
    (surf : OpticalSurface) (lft rht : PlacedVolume) (hde : de.isValid = true)
    (hl : lft.isValid = true) (hr : rht.isValid = true) (hsurf : surf.isValid = true) :
    BorderSurface.BorderSurface g de nam surf lft rht =
      ⟨(g.newBorder ⟨c_str (g.path de ++ "#" ++ nam), g.GetName surf, surf.ptr,
          lft.ptr, rht.ptr⟩).2.AddBorderSurface (g.world de) (g.top + 1),
        g.top + 1, none⟩ := by
  simp only [BorderSurface.BorderSurface, hde, hl, hr, hsurf]
  rfl

theorem SkinSurface_returns_valid (g : Geo) (de : DetElement) (nam : String)
    (surf : OpticalSurface) (vol : Volume)
    (h : (SkinSurface.SkinSurface g de nam surf vol).raised = none) :
    de.isValid = true ∧ vol.isValid = true ∧ surf.isValid = true := by
  cases hde : de.isValid <;> cases hvol : vol.isValid <;> cases hsurf : surf.isValid <;>
    simp [SkinSurface.SkinSurface, except, hde, hvol, hsurf] at h ⊢

theorem BorderSurface_returns_valid (g : Geo) (de : DetElement) (nam : String)
    (surf : OpticalSurface) (lft rht : PlacedVolume)
    (h : (BorderSurface.BorderSurface g de nam surf lft rht).raised = none) :
    de.isValid = true ∧ lft.isValid = true ∧ rht.isValid = true ∧
      surf.isValid = true := by
  cases hde : de.isValid <;> cases hl : lft.isValid <;> cases hr : rht.isValid <;>
    cases hsurf : surf.isValid <;>
    simp [BorderSurface.BorderSurface, except, hde, hl, hr, hsurf] at h ⊢

/-- C11: on the handle and in the state left by a `SkinSurface` construction that did
not raise, `surface()` returns `surf` and `volume()` returns `vol`; on those left by a
`BorderSurface` construction that did not raise, `surface()` returns `surf`, `left()`
returns `lft` and `right()` returns `rht`. -/
theorem accessors_return_constructor_arguments (g : Geo) (de : DetElement)
    (nam : String) (surf : OpticalSurface) (vol : Volume) (lft rht : PlacedVolume) :
    ((SkinSurface.SkinSurface g de nam surf vol).raised = none →
      SkinSurface.surface (SkinSurface.SkinSurface g de nam surf vol).geo
          ⟨(SkinSurface.SkinSurface g de nam surf vol).m_element⟩ = some surf ∧
      SkinSurface.volume (SkinSurface.SkinSurface g de nam surf vol).geo
          ⟨(SkinSurface.SkinSurface g de nam surf vol).m_element⟩ = some vol) ∧
    ((BorderSurface.BorderSurface g de nam surf lft rht).raised = none →
      BorderSurface.surface (BorderSurface.BorderSurface g de nam surf lft rht).geo
          ⟨(BorderSurface.BorderSurface g de nam surf lft rht).m_element⟩ = some surf ∧
      BorderSurface.left (BorderSurface.BorderSurface g de nam surf lft rht).geo
          ⟨(BorderSurface.BorderSurface g de nam surf lft rht).m_element⟩ = some lft ∧
      BorderSurface.right (BorderSurface.BorderSurface g de nam surf lft rht).geo
          ⟨(BorderSurface.BorderSurface g de nam surf lft rht).m_element⟩ = some rht) := by
  constructor
  · intro h
    obtain ⟨hde, hvol, hsurf⟩ := SkinSurface_returns_valid g de nam surf vol h
    rw [SkinSurface_valid g de nam surf vol hde hvol hsurf]
    simp [SkinSurface.surface, SkinSurface.volume, Handle.access, Handle.isValid,
      Geo.AddSkinSurface, Geo.newSkin, Handle.ptr]
  · intro h
    obtain ⟨hde, hl, hr, hsurf⟩ := BorderSurface_returns_valid g de nam surf lft rht h
    rw [BorderSurface_valid g de nam surf lft rht hde hl hr hsurf]
    simp [BorderSurface.surface, BorderSurface.left, BorderSurface.right, Handle.access,
      Handle.isValid, Geo.AddBorderSurface, Geo.newBorder, Handle.ptr]

/-- Witness of C11: a border surface between the placements 3 and 4 of `geo0`; the left
placement is 3 and the right one is 4. -/
theorem accessors_return_constructor_arguments_witness :
    BorderSurface.surface (BorderSurface.BorderSurface geo0 ⟨1⟩ "gap" ⟨2⟩ ⟨3⟩ ⟨4⟩).geo
        ⟨(BorderSurface.BorderSurface geo0 ⟨1⟩ "gap" ⟨2⟩ ⟨3⟩ ⟨4⟩).m_element⟩ = some ⟨2⟩ ∧
    BorderSurface.left (BorderSurface.BorderSurface geo0 ⟨1⟩ "gap" ⟨2⟩ ⟨3⟩ ⟨4⟩).geo
        ⟨(BorderSurface.BorderSurface geo0 ⟨1⟩ "gap" ⟨2⟩ ⟨3⟩ ⟨4⟩).m_element⟩ = some ⟨3⟩ ∧
    BorderSurface.right (BorderSurface.BorderSurface geo0 ⟨1⟩ "gap" ⟨2⟩ ⟨3⟩ ⟨4⟩).geo
        ⟨(BorderSurface.BorderSurface geo0 ⟨1⟩ "gap" ⟨2⟩ ⟨3⟩ ⟨4⟩).m_element⟩ = some ⟨4⟩ :=
  (accessors_return_constructor_arguments geo0 ⟨1⟩ "gap" ⟨2⟩ ⟨3⟩ ⟨3⟩ ⟨4⟩).2 (by rfl)

/-! ## Assignment and copy of the extensions -/

/-- C12: after `a = c` on placed volume extensions, `a.magic` and `a.volIDs` are those of
`c`, `a.refCount` is what it was, `c` and every other extension are unchanged, also when
`a` and `c` are the same object, and `a` has the magic word `c` had. -/
theorem PlacedVolumeExtension_assign_frame (mem : Nat → PlacedVolumeExtension)
    (pa pc magic_word : Nat) :
    (PlacedVolumeExtension.assign_at mem pa pc pa).magic = (mem pc).magic ∧
    (PlacedVolumeExtension.assign_at mem pa pc pa).volIDs = (mem pc).volIDs ∧
    (PlacedVolumeExtension.assign_at mem pa pc pa).refCount = (mem pa).refCount ∧
    PlacedVolumeExtension.assign_at mem pa pc pc = mem pc ∧
    (∀ p, p ≠ pa → PlacedVolumeExtension.assign_at mem pa pc p = mem p) ∧
    PlacedVolumeExtension.assign_at mem pa pc pa = (mem pa).assign (mem pc) ∧
    ((mem pc).magic = magic_word →
      (PlacedVolumeExtension.assign_at mem pa pc pa).magic = magic_word) := by
  have hne : ∀ p, p ≠ pa → PlacedVolumeExtension.assign_at mem pa pc p = mem p := by
    intro p hp
    simp [PlacedVolumeExtension.assign_at, Function.update_noteq hp]
  have ha : PlacedVolumeExtension.assign_at mem pa pc pa = (mem pa).assign (mem pc) := by
    by_cases h : pc = pa
    · subst h
      simp [PlacedVolumeExtension.assign_at, PlacedVolumeExtension.assign]
    · simp [PlacedVolumeExtension.assign_at, PlacedVolumeExtension.assign,
        Function.update_noteq h]
  refine ⟨by rw [ha]; rfl, by rw [ha]; rfl, by rw [ha]; rfl, ?_, hne, ha, ?_⟩
  · by_cases h : pc = pa
    · subst h
      rw [ha]
      rfl
    · exact hne pc h
  · intro hm
    rw [ha]
    exact hm

/-- Witness of C12: assigning the extension at address 2 of `pvStore0` to the one at
address 1 copies the magic word and the identifiers and leaves the count at 2. -/
theorem PlacedVolumeExtension_assign_frame_witness :
    PlacedVolumeExtension.assign_at pvStore0 1 2 1
      = { magic := 42, refCount := 2, volIDs := [("system", 3), ("module", 4)] } ∧
    PlacedVolumeExtension.assign_at pvStore0 1 2 2 = pvStore0 2 :=
  ⟨((PlacedVolumeExtension_assign_frame pvStore0 1 2 42).2.2.2.2.2.1).trans (by decide),
    (PlacedVolumeExtension_assign_frame pvStore0 1 2 42).2.2.2.1⟩

/-- C13: after `a.copy(c)` on volume extensions, the fields `magic`, `region`, `limits`,
`vis`, `sens_det` and `referenced` of `a` are those of `c`, `a.flags` and `a.refCount`
are what they were, and `c` and every other extension are unchanged, also when `a` and
`c` are the same object. -/
theorem VolumeExtension_copy_frame (mem : Nat → VolumeExtension) (pa pc : Nat) :
    (VolumeExtension.copy_at mem pa pc pa).magic = (mem pc).magic ∧
    (VolumeExtension.copy_at mem pa pc pa).region = (mem pc).region ∧
    (VolumeExtension.copy_at mem pa pc pa).limits = (mem pc).limits ∧
    (VolumeExtension.copy_at mem pa pc pa).vis = (mem pc).vis ∧
    (VolumeExtension.copy_at mem pa pc pa).sens_det = (mem pc).sens_det ∧
    (VolumeExtension.copy_at mem pa pc pa).referenced = (mem pc).referenced ∧
    (VolumeExtension.copy_at mem pa pc pa).flags = (mem pa).flags ∧
    (VolumeExtension.copy_at mem pa pc pa).refCount = (mem pa).refCount ∧
    VolumeExtension.copy_at mem pa pc pc = mem pc ∧
    (∀ p, p ≠ pa → VolumeExtension.copy_at mem pa pc p = mem p) ∧
    VolumeExtension.copy_at mem pa pc pa = (mem pa).copy (mem pc) := by
  have hne : ∀ p, p ≠ pa → VolumeExtension.copy_at mem pa pc p = mem p := by
    intro p hp
    simp [VolumeExtension.copy_at, Function.update_noteq hp]
  have ha : VolumeExtension.copy_at mem pa pc pa = (mem pa).copy (mem pc) := by
    by_cases h : pc = pa
    · subst h
      simp [VolumeExtension.copy_at, VolumeExtension.copy]
    · simp [VolumeExtension.copy_at, VolumeExtension.copy, Function.update_noteq h]
  refine ⟨by rw [ha]; rfl, by rw [ha]; rfl, by rw [ha]; rfl, by rw [ha]; rfl,
    by rw [ha]; rfl, by rw [ha]; rfl, by rw [ha]; rfl, by rw [ha]; rfl, ?_, hne, ha⟩
  by_cases h : pc = pa
  · subst h
    rw [ha]
    rfl
  · exact hne pc h

/-- Witness of C13: copying the extension at address 2 of `volStore0` into the one at
address 1 leaves the flag bit `VETO_SIMU` and the count 2 of the target in place. -/
theorem VolumeExtension_copy_frame_witness :
    VolumeExtension.copy_at volStore0 1 2 1
      = { magic := 42, refCount := 2, referenced := 1, flags := 2,
          region := ⟨6⟩, limits := ⟨7⟩, vis := ⟨8⟩, sens_det := ⟨9⟩ } ∧
    VolumeExtension.copy_at volStore0 1 2 2 = volStore0 2 :=
  ⟨((VolumeExtension_copy_frame volStore0 1 2).2.2.2.2.2.2.2.2.2.2).trans (by decide),
    (VolumeExtension_copy_frame volStore0 1 2).2.2.2.2.2.2.2.2.1⟩

end dd4hep
